import Mathlib

/-!
Shallow embedding of the core of `src/bot/cogs/reddit.py` (the `Reddit` cog):
base-36 post-id decoding, the `fetch_posts` retry loop, one per-topic
iteration of the `poll_new_posts` loop (watermark logic), the weekly
scheduler's sleep computation from `poll_top_weekly_posts`, its pin
maintenance, the token refresh step `refresh_access_token`, and the
structural outcome of `init_reddit_polling` / `get_tokens`.
-/

namespace RedditBot

/-! ### Base-36 id decoding (`int(data["id"], 36)` at reddit.py:214,229) -/

/-- Value of one base-36 digit, as Python `int(·, 36)` accepts them:
decimal digits and latin letters of either case. -/
def base36DigitVal (c : Char) : Option Nat :=
  if '0' ≤ c ∧ c ≤ '9' then some (c.toNat - '0'.toNat)
  else if 'a' ≤ c ∧ c ≤ 'z' then some (c.toNat - 'a'.toNat + 10)
  else if 'A' ≤ c ∧ c ≤ 'Z' then some (c.toNat - 'A'.toNat + 10)
  else none

/-- Horner evaluation of a base-36 digit string. -/
def decodeBase36Core : Nat → List Char → Option Nat
  | acc, [] => some acc
  | acc, c :: cs =>
    match base36DigitVal c with
    | some d => decodeBase36Core (acc * 36 + d) cs
    | none => none

/-- Model of Python `int(s, 36)` on a plain digit string: `none` models the
`ValueError` raised on an empty or malformed string. -/
def decodeBase36 (s : String) : Option Nat :=
  if s.isEmpty then none else decodeBase36Core 0 s.data

/-! ### Posts -/

/-- The fields of one entry of `content["data"]["children"][k]["data"]` that
the poller reads. -/
structure PostData where
  id : String
  title : String
  selftext : String
  permalink : String
  author : String
  deriving Repr, DecidableEq

/-- A sample post carrying a given id (the other fields are fixed text);
used for concrete evaluations. -/
def mkPost (id : String) : PostData :=
  { id := id, title := "t", selftext := "s", permalink := "/p", author := "a" }

/-- Decoded ordinals of a page of posts, in page order; `none` models a
`ValueError` from `int(·, 36)` on some id. -/
def ordsOf : List PostData → Option (List Nat)
  | [] => some []
  | p :: rest =>
    match decodeBase36 p.id, ordsOf rest with
    | some i, some tl => some (i :: tl)
    | _, _ => none

/-! ### One per-topic iteration of `poll_new_posts` (reddit.py:205-243)

The loop body for one subreddit, given the watermark entry
`last_ids.get(subreddit)` and the page returned by `fetch_posts`.  The
`for post in posts` collection loop (lines 210-227) runs only when a
watermark exists; it decodes each id most-recent-first and `break`s at the
first ordinal `≤` the watermark.  Line 229 then sets the watermark to
`int(posts[0]["data"]["id"], 36)` unconditionally — `posts[0]` raises
`IndexError` on an empty page, modelled as `none`.  Lines 232-241 send the
collected posts in the order they were appended (page order). -/

/-- The collection loop of lines 210-227: walk the page most-recent-first,
stopping at the first ordinal `≤ w`.  `none` models a decoding
`ValueError` crashing the loop. -/
def collectNew (w : Nat) : List PostData → Option (List PostData)
  | [] => some []
  | p :: rest =>
    match decodeBase36 p.id with
    | none => none
    | some i =>
      if i ≤ w then some []
      else
        match collectNew w rest with
        | some tl => some (p :: tl)
        | none => none

/-- One per-topic cycle of `poll_new_posts` after the fetch: returns the
posts dispatched to the sink channel, in dispatch order, together with the
new watermark; `none` models the cycle raising (`IndexError` at
`posts[0]` on an empty page, or `ValueError` from id decoding). -/
def poll_new_posts_cycle (lastId : Option Nat) (posts : List PostData) :
    Option (List PostData × Nat) :=
  let newPosts :=
    match lastId with
    | some w => collectNew w posts
    | none => some []
  match newPosts, posts with
  | some np, p :: _ =>
    match decodeBase36 p.id with
    | some i => some (np, i)
    | none => none
  | _, _ => none

/-- A list of ordinals as delivered by the platform, most-recent-first:
each entry is `≥` the next. -/
def descending (l : List Nat) : Prop := l.Pairwise (fun a b => b ≤ a)

instance (l : List Nat) : Decidable (descending l) :=
  inferInstanceAs (Decidable (l.Pairwise (fun a b => b ≤ a)))

/-! ### Lemmas about the collection loop -/

theorem ordsOf_nil_inv {ords : List Nat} (h : ordsOf [] = some ords) : ords = [] := by
  simpa [ordsOf] using h.symm

theorem ordsOf_cons_inv {p : PostData} {rest : List PostData} {ords : List Nat}
    (h : ordsOf (p :: rest) = some ords) :
    ∃ i tl, decodeBase36 p.id = some i ∧ ordsOf rest = some tl ∧ ords = i :: tl := by
  cases hdec : decodeBase36 p.id with
  | none => simp [ordsOf, hdec] at h
  | some i =>
    cases hrest : ordsOf rest with
    | none => simp [ordsOf, hdec, hrest] at h
    | some tl =>
      refine ⟨i, tl, rfl, rfl, ?_⟩
      simp [ordsOf, hdec, hrest] at h
      exact h.symm

/-- On a page whose decoded ordinals are descending, the break-at-first-known
scan of lines 210-227 collects exactly the entries with ordinal `> w`, in
page order. -/
theorem collectNew_eq_filter (w : Nat) :
    ∀ (posts : List PostData) (ords : List Nat),
      ordsOf posts = some ords → descending ords →
      collectNew w posts =
        some (((posts.zip ords).filter (fun q => w < q.2)).map Prod.fst) := by
  intro posts
  induction posts with
  | nil =>
    intro ords h _
    rw [ordsOf_nil_inv h]
    simp [collectNew]
  | cons p rest ih =>
    intro ords h hdesc
    obtain ⟨i, tl, hdec, hrest, rfl⟩ := ordsOf_cons_inv h
    by_cases hle : i ≤ w
    · have hall : ∀ j ∈ tl, j ≤ i := (List.pairwise_cons.mp hdesc).1
      have hfilt : ((rest.zip tl).filter (fun q => w < q.2)) = [] := by
        rw [List.filter_eq_nil_iff]
        intro q hq
        have hq2 : q.2 ≤ i := hall _ (List.of_mem_zip hq).2
        simp only [decide_eq_true_eq, not_lt]
        omega
      simp [collectNew, hdec, hle, List.filter_cons, hfilt, Nat.not_lt.mpr hle]
    · have htl : descending tl := (List.pairwise_cons.mp hdesc).2
      have hlt : w < i := Nat.lt_of_not_le (fun hc => hle (Nat.le_of_lt_succ (Nat.lt_succ_of_le hc)))
      simp [collectNew, hdec, hle, ih tl hrest htl, List.filter_cons, hlt]

/-- The collection loop cannot raise when every id on the page decodes. -/
theorem collectNew_isSome (w : Nat) :
    ∀ (posts : List PostData) (ords : List Nat),
      ordsOf posts = some ords → ∃ l, collectNew w posts = some l := by
  intro posts
  induction posts with
  | nil => intro ords _; exact ⟨[], rfl⟩
  | cons p rest ih =>
    intro ords h
    obtain ⟨i, tl, hdec, hrest, rfl⟩ := ordsOf_cons_inv h
    by_cases hle : i ≤ w
    · exact ⟨[], by simp [collectNew, hdec, hle]⟩
    · obtain ⟨l, hl⟩ := ih tl hrest
      exact ⟨p :: l, by simp [collectNew, hdec, hle, hl]⟩

/-! ### Claims C1-C4: the per-topic polling cycle -/

/-- C1 (counterexample): with watermark 2 and a fetched page of ids
`["4","3","2"]`, the cycle dispatches the posts in page order — ordinal 4
first, then 3 — not in ascending ordinal order `[3, 4]` as the claim
states (the send loop of lines 232-241 iterates `new_posts` in append
order, which is the scan order, most recent first). -/
theorem C1_counterexample :
    poll_new_posts_cycle (some 2) [mkPost "4", mkPost "3", mkPost "2"] =
      some ([mkPost "4", mkPost "3"], 4) ∧
    ([mkPost "4", mkPost "3"] : List PostData) ≠ [mkPost "3", mkPost "4"] := by
  exact ⟨rfl, by decide⟩

/-- C1 (amended): with an existing watermark `w` and a non-empty fetched
page sorted most-recent-first whose ids all decode, the cycle emits
exactly the fetched items whose ordinal is `> w`, in page order
(descending ordinal, newest dispatched first — the scan order, not its
reverse), and sets the watermark to the first item's ordinal. -/
theorem C1_amended (w : Nat) (posts : List PostData) (ords : List Nat) (i : Nat)
    (hords : ordsOf posts = some ords)
    (hdesc : descending ords)
    (hhead : ords.head? = some i) :
    poll_new_posts_cycle (some w) posts =
      some (((posts.zip ords).filter (fun q => w < q.2)).map Prod.fst, i) := by
  cases posts with
  | nil =>
    rw [ordsOf_nil_inv hords] at hhead
    simp at hhead
  | cons p rest =>
    obtain ⟨i₀, tl, hdec, hrest, rfl⟩ := ordsOf_cons_inv hords
    have hi : i₀ = i := by simpa using hhead
    subst hi
    have hcol := collectNew_eq_filter w (p :: rest) (i₀ :: tl) hords hdesc
    simp [poll_new_posts_cycle, hcol, hdec]

/-- C1 (witness): the amended theorem at watermark 2 and page
`["4","3","2"]`; the emitted list evaluates to the posts of ordinals 4
then 3, and the new watermark to 4. -/
theorem C1_witness :
    poll_new_posts_cycle (some 2) [mkPost "4", mkPost "3", mkPost "2"] =
      some (((([mkPost "4", mkPost "3", mkPost "2"].zip [4, 3, 2]).filter
        (fun q => 2 < q.2)).map Prod.fst), 4) :=
  C1_amended 2 [mkPost "4", mkPost "3", mkPost "2"] [4, 3, 2] 4
    (by rfl) (by decide) (by rfl)

/-- C2: on a cold start (no watermark entry) with a non-empty fetched page
whose first item decodes to ordinal `i`, the cycle emits no items and sets
the watermark to `i`. -/
theorem C2_cold_start (posts : List PostData) (p : PostData) (i : Nat)
    (hhead : posts.head? = some p) (hi : decodeBase36 p.id = some i) :
    poll_new_posts_cycle none posts = some ([], i) := by
  cases posts with
  | nil => simp at hhead
  | cons q rest =>
    have hq : q = p := by simpa using hhead
    subst hq
    simp [poll_new_posts_cycle, hi]

/-- C2 (witness): the spec's scenario — no watermark, page of ids
`["2","1"]` — emits nothing and sets the watermark to 2. -/
theorem C2_witness :
    poll_new_posts_cycle none [mkPost "2", mkPost "1"] = some ([], 2) :=
  C2_cold_start [mkPost "2", mkPost "1"] (mkPost "2") 2 (by rfl) (by rfl)

/-- C3 (counterexample): with stored watermark 5 and a fetched page whose
only id is `"3"`, the cycle stores watermark 3 < 5: line 229 overwrites
the watermark with the page's first ordinal unconditionally, so the
watermark can decrease. -/
theorem C3_counterexample :
    poll_new_posts_cycle (some 5) [mkPost "3"] = some ([], 3) ∧ 3 < 5 :=
  ⟨rfl, by decide⟩

/-- C3 (amended): after a cycle on a non-empty fetched page whose ids all
decode, the stored watermark equals the decoded ordinal of the page's
first (most recent) item — whatever the previous watermark `w` was.  It
therefore does not decrease exactly when that first ordinal is `≥ w`;
nothing in the code enforces this when the page's newest item is older
than the watermark. -/
theorem C3_amended (w : Nat) (posts : List PostData) (ords : List Nat) (i : Nat)
    (hords : ordsOf posts = some ords) (hhead : ords.head? = some i) :
    ∃ emitted, poll_new_posts_cycle (some w) posts = some (emitted, i) := by
  cases posts with
  | nil =>
    rw [ordsOf_nil_inv hords] at hhead
    simp at hhead
  | cons p rest =>
    obtain ⟨i₀, tl, hdec, hrest, rfl⟩ := ordsOf_cons_inv hords
    have hi : i₀ = i := by simpa using hhead
    subst hi
    obtain ⟨l, hl⟩ := collectNew_isSome w (p :: rest) (i₀ :: tl) hords
    exact ⟨l, by simp [poll_new_posts_cycle, hl, hdec]⟩

/-- C3 (witness): the amended theorem at watermark 5 and page `["3"]`. -/
theorem C3_witness :
    ∃ emitted, poll_new_posts_cycle (some 5) [mkPost "3"] = some (emitted, 3) :=
  C3_amended 5 [mkPost "3"] [3] 3 (by rfl) (by rfl)

/-- C4: a cycle whose full fetch returns the empty page raises
(`IndexError` at `posts[0]`, reddit.py:229) whether or not a watermark
exists — the ordinal lookup is NOT guarded, contradicting the spec's
stated edge case. -/
theorem C4_code_bug (lastId : Option Nat) :
    poll_new_posts_cycle lastId [] = none := by
  cases lastId <;> rfl

/-! ### `fetch_posts` (reddit.py:99-124)

The retry loop is modelled against an abstract network: `net k` is the
response the `k`-th GET of this call would receive.  The trace records the
outcome and the virtual time (in seconds, starting at 0) of each attempt;
each failed attempt is followed by `await asyncio.sleep(3)`. -/

/-- An HTTP response as the cog inspects it: status, content type, and the
decoded `content["data"]["children"]` payload when it is JSON. -/
structure HttpResponse where
  status : Nat
  content_type : String
  children : List PostData
  deriving Repr, DecidableEq

/-- The success test of reddit.py:115 (and of :86): status 200 and JSON
content type. -/
def responseOk (r : HttpResponse) : Bool :=
  r.status == 200 && r.content_type == "application/json"

/-- `MAX_FETCH_RETRIES` (reddit.py:31). -/
def MAX_FETCH_RETRIES : Nat := 3

/-- Result of one `fetch_posts` call: the returned value (or the
`ValueError` message), and the virtual times at which GETs were issued. -/
structure FetchTrace where
  result : Except String (List PostData)
  attemptTimes : List Nat
  deriving Repr

/-- The `for _ in range(MAX_FETCH_RETRIES)` loop of reddit.py:109-124:
`fuel` attempts remain, `idx` GETs were already issued, `clock` is the
virtual time, `times` the attempt times so far (reversed). -/
def fetchLoop (net : Nat → HttpResponse) (amount : Nat) :
    Nat → Nat → Nat → List Nat → FetchTrace
  | 0, _, _, times => ⟨Except.ok [], times.reverse⟩
  | fuel + 1, idx, clock, times =>
    let r := net idx
    if responseOk r then
      ⟨Except.ok (r.children.take amount), (clock :: times).reverse⟩
    else
      fetchLoop net amount fuel (idx + 1) (clock + 3) (clock :: times)

/-- `fetch_posts`: rejects an `amount` outside `(0, 25]` with a
`ValueError` before any request; otherwise runs the bounded retry loop and
returns at most `amount` posts, or the empty list after retry
exhaustion. -/
def fetch_posts (net : Nat → HttpResponse) (amount : Int) : FetchTrace :=
  if ¬(25 ≥ amount ∧ amount > 0) then
    ⟨Except.error "Invalid amount of subreddit posts requested.", []⟩
  else
    fetchLoop net amount.toNat MAX_FETCH_RETRIES 0 0 []

/-- Any `Except.ok` result of the retry loop holds at most `amount`
posts. -/
theorem fetchLoop_length_le (net : Nat → HttpResponse) (amount : Nat) :
    ∀ (fuel idx clock : Nat) (times : List Nat) (posts : List PostData),
      (fetchLoop net amount fuel idx clock times).result = Except.ok posts →
      posts.length ≤ amount := by
  intro fuel
  induction fuel with
  | zero =>
    intro idx clock times posts h
    simp [fetchLoop] at h
    subst h
    simp
  | succ fuel ih =>
    intro idx clock times posts h
    by_cases hok : responseOk (net idx)
    · simp [fetchLoop, hok] at h
      rw [← h]
      exact (List.length_take _ _).trans_le (Nat.min_le_left _ _)
    · simp [fetchLoop, hok] at h
      exact ih (idx + 1) (clock + 3) (clock :: times) posts h

/-! ### Claims C5-C6 -/

/-- C5: an `amount` outside `(0, 25]` is rejected with a `ValueError`
before any network request (the attempt-time trace is empty); and any
successful return of a valid call holds at most `amount` posts. -/
theorem C5_amount_contract (net : Nat → HttpResponse) (amount : Int) :
    (¬(0 < amount ∧ amount ≤ 25) →
      fetch_posts net amount =
        ⟨Except.error "Invalid amount of subreddit posts requested.", []⟩) ∧
    (∀ posts : List PostData,
      (fetch_posts net amount).result = Except.ok posts →
      posts.length ≤ amount.toNat) := by
  constructor
  · intro hbad
    rw [fetch_posts, if_pos]
    intro ⟨h1, h2⟩
    exact hbad ⟨h2, h1⟩
  · intro posts h
    by_cases hv : 25 ≥ amount ∧ amount > 0
    · rw [fetch_posts, if_neg (by simpa using hv)] at h
      exact fetchLoop_length_le net amount.toNat _ _ _ _ posts h
    · rw [fetch_posts, if_pos hv] at h
      simp at h

/-- A network on which every request fails (wrong status, non-JSON). -/
def netAllFail : Nat → HttpResponse :=
  fun _ => ⟨500, "text/html", []⟩

/-- A network whose every response is a success carrying three posts. -/
def netThreePosts : Nat → HttpResponse :=
  fun _ => ⟨200, "application/json", [mkPost "3", mkPost "2", mkPost "1"]⟩

/-- C5 (witness): `amount = 30` is rejected with no attempt issued, and a
successful fetch with `amount = 2` from a page of three posts returns at
most 2 posts. -/
theorem C5_witness :
    fetch_posts netAllFail 30 =
      ⟨Except.error "Invalid amount of subreddit posts requested.", []⟩ ∧
    ([mkPost "3", mkPost "2"] : List PostData).length ≤ (2 : Int).toNat :=
  ⟨(C5_amount_contract netAllFail 30).1 (by decide),
   (C5_amount_contract netThreePosts 2).2 [mkPost "3", mkPost "2"] (by rfl)⟩

/-- C6: with a valid `amount`, if every attempt receives a non-success
response, `fetch_posts` issues exactly 3 GETs, at virtual times 0, 3 and 6
(consecutive attempts separated by the 3-second sleep of reddit.py:121),
and then returns the empty list rather than raising. -/
theorem C6_retry_exhaustion (net : Nat → HttpResponse) (amount : Int)
    (hv : 0 < amount ∧ amount ≤ 25)
    (hfail : ∀ k, k < 3 → responseOk (net k) = false) :
    fetch_posts net amount = ⟨Except.ok [], [0, 3, 6]⟩ := by
  rw [fetch_posts, if_neg (by simp; omega)]
  rw [MAX_FETCH_RETRIES]
  rw [fetchLoop]
  simp only [hfail 0 (by omega), Bool.false_eq_true, if_false]
  rw [fetchLoop]
  simp only [hfail 1 (by omega), Bool.false_eq_true, if_false]
  rw [fetchLoop]
  simp only [hfail 2 (by omega), Bool.false_eq_true, if_false]
  rfl

/-- C6 (witness): the theorem at `amount = 25` on the all-failing
network. -/
theorem C6_witness :
    fetch_posts netAllFail 25 = ⟨Except.ok [], [0, 3, 6]⟩ :=
  C6_retry_exhaustion netAllFail 25 (by decide) (by decide)

/-! ### The weekly scheduler's sleep computation (reddit.py:247-255)

`datetime.utcnow()` is modelled as an absolute day index (days since
1970-01-01, a Thursday) plus a time of day with microseconds; Python
`timedelta` arithmetic is exact in microseconds, so all durations are in
integer microseconds. -/

/-- A `datetime` value as the scheduler uses it. -/
structure PyDateTime where
  day : Nat
  hour : Nat
  minute : Nat
  second : Nat
  microsecond : Nat
  deriving Repr, DecidableEq

/-- Python `datetime.weekday()`: Monday is 0.  Day 0 (1970-01-01) is a
Thursday, weekday 3. -/
def weekday (d : PyDateTime) : Nat := (d.day + 3) % 7

/-- A `PyDateTime` as a count of microseconds since the epoch. -/
def toMicroseconds (d : PyDateTime) : Nat :=
  (((d.day * 24 + d.hour) * 60 + d.minute) * 60 + d.second) * 1000000 + d.microsecond

/-- Lines 251-253: `monday = now + timedelta(days = 7 - now.weekday())`
then `monday.replace(hour=0, minute=0, second=0)` — note `microsecond` is
NOT replaced — and the sleep is `(monday - now).total_seconds()`, here
kept exact in microseconds. -/
def nextMondaySleepMicros (now : PyDateTime) : Nat :=
  let monday : PyDateTime :=
    { day := now.day + (7 - weekday now), hour := now.hour,
      minute := now.minute, second := now.second, microsecond := now.microsecond }
  let monday := { monday with hour := 0, minute := 0, second := 0 }
  toMicroseconds monday - toMicroseconds now

/-- The next Monday 00:00:00.000000 strictly after `now`'s day. -/
def mondayMidnight (now : PyDateTime) : PyDateTime :=
  { day := now.day + (7 - weekday now), hour := 0, minute := 0, second := 0,
    microsecond := 0 }

/-- The exact duration, in microseconds, from `now` to the next Monday
midnight. -/
def untilMondayMidnightMicros (now : PyDateTime) : Nat :=
  toMicroseconds (mondayMidnight now) - toMicroseconds now

/-! ### Claim C9 -/

/-- C9 (counterexample): at Sunday 23:59:59.500000 (day 3 of the epoch is
Sunday 1970-01-04) the computed sleep is 1 second (1000000 μs), but the
exact time to Monday 00:00:00 is 0.5 s — `replace` leaves `microsecond`
untouched, so the computed duration is not the exact time to a
zero-subsecond Monday midnight. -/
theorem C9_counterexample :
    nextMondaySleepMicros ⟨3, 23, 59, 59, 500000⟩ = 1000000 ∧
    untilMondayMidnightMicros ⟨3, 23, 59, 59, 500000⟩ = 500000 ∧
    (1000000 : Nat) ≠ 500000 := by
  refine ⟨by rfl, by rfl, by decide⟩

/-- C9 (amended): for any valid `now`, the computed sleep is strictly
positive and exceeds the exact time to the next Monday 00:00:00 by
exactly `now.microsecond` — i.e. its endpoint is a Monday whose hour,
minute and second are zero but whose sub-second component equals `now`'s.
It equals the exact duration precisely when `now.microsecond = 0`. -/
theorem C9_amended (now : PyDateTime) (hh : now.hour < 24) (hm : now.minute < 60)
    (hs : now.second < 60) (hu : now.microsecond < 1000000) :
    nextMondaySleepMicros now =
      untilMondayMidnightMicros now + now.microsecond ∧
    0 < nextMondaySleepMicros now := by
  have hwd : weekday now < 7 := Nat.mod_lt _ (by decide)
  unfold nextMondaySleepMicros untilMondayMidnightMicros mondayMidnight weekday
  unfold toMicroseconds
  simp only
  unfold weekday at hwd
  omega

/-- C9 (witness): the amended theorem at Sunday 23:59:59.500000. -/
theorem C9_witness :
    nextMondaySleepMicros ⟨3, 23, 59, 59, 500000⟩ =
      untilMondayMidnightMicros ⟨3, 23, 59, 59, 500000⟩ + 500000 ∧
    0 < nextMondaySleepMicros ⟨3, 23, 59, 59, 500000⟩ :=
  C9_amended ⟨3, 23, 59, 59, 500000⟩ (by decide) (by decide) (by decide) (by decide)

/-! ### Pin maintenance of the weekly digest (reddit.py:266-274)

`channel.pins()` lists pinned messages most-recently-pinned first, so
`pins[-1]` is the oldest.  Messages are identified by their id. -/

/-- The `while len(pins) >= 5` loop of lines 270-272: repeatedly unpin the
oldest entry.  Returns the remaining pin list and the unpinned ids in the
order the unpins were issued.  `fuel` bounds the iterations; each
iteration removes one element, so `fuel = ps.length` suffices. -/
def unpinLoop : Nat → List Nat → List Nat → List Nat × List Nat
  | 0, ps, acc => (ps, acc.reverse)
  | fuel + 1, ps, acc =>
    if 5 ≤ ps.length then
      match ps.getLast? with
      | some old => unpinLoop fuel ps.dropLast (old :: acc)
      | none => (ps, acc.reverse)
    else
      (ps, acc.reverse)

/-- Python `str.lower()` on an ASCII subreddit name: lower-case each
character. -/
def pyLower (s : String) : String := String.mk (s.data.map Char.toLower)

/-- One digest cycle's pin maintenance for a subreddit (lines 266-274):
when the topic is the primary one (lower-cased name equal to
`"r/python"`), run the unpin loop and then pin the digest message `msg`
(it becomes the most recent pin); otherwise no pin activity.  Returns the
channel's pin list after the cycle and the unpinned ids in unpin
order. -/
def digestPinCycle (subreddit : String) (pins : List Nat) (msg : Nat) :
    List Nat × List Nat :=
  if pyLower subreddit == "r/python" then
    let r := unpinLoop pins.length pins []
    (msg :: r.1, r.2)
  else
    (pins, [])

/-- The unpin loop keeps the 4 newest pins and unpins the rest, oldest
first, given enough fuel. -/
theorem unpinLoop_spec :
    ∀ (fuel : Nat) (ps acc : List Nat), ps.length ≤ fuel + 4 →
      unpinLoop fuel ps acc = (ps.take 4, acc.reverse ++ (ps.drop 4).reverse) := by
  intro fuel
  induction fuel with
  | zero =>
    intro ps acc hlen
    rw [unpinLoop, List.take_of_length_le (by omega), List.drop_eq_nil_of_le (by omega)]
    simp
  | succ fuel ih =>
    intro ps acc hlen
    by_cases h5 : 5 ≤ ps.length
    · have hne : ps ≠ [] := List.ne_nil_of_length_pos (by omega)
      have hdl : ps.dropLast.length = ps.length - 1 := List.length_dropLast ps
      have h4 : 4 ≤ ps.dropLast.length := by omega
      rw [unpinLoop, if_pos h5, List.getLast?_eq_getLast ps hne]
      show unpinLoop fuel ps.dropLast (ps.getLast hne :: acc) = _
      rw [ih ps.dropLast (ps.getLast hne :: acc) (by omega)]
      have hps : ps.dropLast ++ [ps.getLast hne] = ps := List.dropLast_append_getLast hne
      simp only [Prod.mk.injEq]
      constructor
      · conv_rhs => rw [← hps]
        rw [List.take_append_of_le_length h4]
      · conv_rhs => rw [← hps]
        rw [List.drop_append_of_le_length h4, List.reverse_append, List.reverse_cons]
        simp
    · rw [unpinLoop]
      rw [if_neg h5, List.take_of_length_le (by omega), List.drop_eq_nil_of_le (by omega)]
      simp

/-! ### Claim C8 -/

/-- C8: for the primary topic (lower-cased name `"r/python"`, i.e. matched
case-insensitively), a digest cycle keeps the 4 newest existing pins,
unpins the rest oldest-first, and then pins the digest message, so the
resulting pin list never exceeds 5 entries.  With exactly 5 existing pins
`pins.drop 4` is the singleton holding the oldest, so exactly one unpin
(the oldest) occurs before the new pin. -/
theorem C8_pin_bound (sub : String) (pins : List Nat) (msg : Nat)
    (hsub : pyLower sub = "r/python") :
    digestPinCycle sub pins msg = (msg :: pins.take 4, (pins.drop 4).reverse) ∧
    (digestPinCycle sub pins msg).1.length ≤ 5 := by
  have h := unpinLoop_spec pins.length pins [] (by omega)
  have hmain : digestPinCycle sub pins msg =
      (msg :: pins.take 4, (pins.drop 4).reverse) := by
    rw [digestPinCycle, if_pos (by simp [hsub])]
    rw [h]
    simp
  refine ⟨hmain, ?_⟩
  rw [hmain]
  simp only [List.length_cons, List.length_take]
  omega

/-- C8 (witness): the spec's scenario — 5 existing pins (ids 14..10,
newest first) — evaluates to exactly one unpin, of the oldest pin 10,
followed by the new pin 99, leaving 5 pins. -/
theorem C8_witness :
    digestPinCycle "r/Python" [14, 13, 12, 11, 10] 99 =
      (99 :: [14, 13, 12, 11, 10].take 4, ([14, 13, 12, 11, 10].drop 4).reverse) ∧
    (digestPinCycle "r/Python" [14, 13, 12, 11, 10] 99).1.length ≤ 5 :=
  C8_pin_bound "r/Python" [14, 13, 12, 11, 10] 99 (by decide)

/-! ### `get_tokens` / `init_reddit_polling` (reddit.py:69-97, 327-339)

`init_reddit_polling` awaits bot readiness, resolves the relay channel,
calls `self.refresh_access_token.start()` — which schedules a task whose
`before_loop` is `get_tokens` and returns without awaiting it — and then,
guarded only by `self.reddit_channel is not None`, creates the
`poll_new_posts` and `poll_top_weekly_posts` tasks with
`loop.create_task`.  On a non-success bootstrap response `get_tokens`
logs and calls `self.bot.remove_cog(...)`; the cog defines no
`cog_unload`, so removal cancels neither of the two already-created
tasks.  The structural outcome below records these facts. -/

/-- What `init_reddit_polling` leaves behind, as a function of the
bootstrap response and whether the relay channel was found. -/
structure InitOutcome where
  tokensSet : Bool
  cogRemoved : Bool
  newPostsTaskCreated : Bool
  weeklyTaskCreated : Bool
  deriving Repr, DecidableEq

/-- The outcome of `init_reddit_polling`: token state follows the
bootstrap response (`get_tokens`, lines 86-97), while the creation of the
two polling tasks depends only on the channel lookup (lines 333-337) —
not on the bootstrap outcome. -/
def init_reddit_polling (bootstrap : HttpResponse) (channelFound : Bool) :
    InitOutcome :=
  let ok := responseOk bootstrap
  { tokensSet := ok
    cogRemoved := !ok
    newPostsTaskCreated := channelFound
    weeklyTaskCreated := channelFound }

/-! ### Claim C7 -/

/-- C7: when the token bootstrap receives a non-success response (here
status 500 with a non-JSON content type) and the relay channel exists,
`init_reddit_polling` still creates BOTH polling tasks: the `create_task`
calls are unconditional on the bootstrap outcome and `remove_cog` cancels
nothing, so the subsystem is not disabled as the spec requires (the loops
run and later die on the missing `self.headers`, rather than never
starting). -/
theorem C7_code_bug :
    init_reddit_polling ⟨500, "text/html", []⟩ true =
      { tokensSet := false, cogRemoved := true,
        newPostsTaskCreated := true, weeklyTaskCreated := true } := rfl

/-! ### `refresh_access_token` (reddit.py:46-66) -/

/-- The token-manager state the refresh step touches: the stored access
token, the stored refresh token, and the derived `Authorization`
header value. -/
structure TokenState where
  access_token : String
  refresh_token : String
  headersAuth : String
  deriving Repr, DecidableEq

/-- The body of a successful token-endpoint response as the refresh step
reads it (`content["access_token"]`). -/
structure TokenResponse where
  access_token : String
  deriving Repr, DecidableEq

/-- One execution of `refresh_access_token`: posts the stored refresh
token as the grant, then assigns `self.access_token` and rebuilds
`self.headers` from it.  No other field of the state is assigned. -/
def refresh_access_token (s : TokenState) (resp : TokenResponse) : TokenState :=
  { s with
    access_token := resp.access_token
    headersAuth := "bearer " ++ resp.access_token }

/-! ### Claim C10 -/

/-- C10: a refresh updates exactly the access token and the derived
header, leaves the stored refresh token as-is, and hence any sequence of
refreshes still holds the refresh token obtained at bootstrap. -/
theorem C10_refresh_frame (s : TokenState) (resp : TokenResponse)
    (resps : List TokenResponse) :
    (refresh_access_token s resp).refresh_token = s.refresh_token ∧
    (refresh_access_token s resp).access_token = resp.access_token ∧
    (refresh_access_token s resp).headersAuth = "bearer " ++ resp.access_token ∧
    (resps.foldl refresh_access_token s).refresh_token = s.refresh_token := by
  refine ⟨rfl, rfl, rfl, ?_⟩
  induction resps generalizing s with
  | nil => rfl
  | cons r rs ih =>
    rw [List.foldl_cons, ih]
    rfl

end RedditBot
